import Mathlib

/-!
Verification development for the libopkele consumer core: the association
store contract, the association negotiator, the request builder and the
`id_res` response verifier, as specified for `opkele::consumer_t`
(src/include/opkele/consumer.h).  The header under src/ is a pure
interface; the operational behaviour is modelled from the specification
(spec.md sections 4.1 through 4.5), faithful to its words, and the
claims are settled against this model.
-/

set_option maxRecDepth 100000

namespace opkele

/-- An OpenID message parameter set: a flat mapping of string keys to
string values (`params_t` in the source). -/
abbrev params_t := List (String × String)

/-- Look up a parameter by key (first binding wins). -/
def get_param (p : params_t) (k : String) : Option String :=
  p.lookup k

/-- Whether the parameter set carries the given key. -/
def has_param (p : params_t) (k : String) : Bool :=
  (get_param p k).isSome

/-- Modelled from the spec: an Association is a value type holding the
provider identity (`server`), the provider-issued `handle`, the shared
`secret` (raw bytes, modelled as a list of byte values) and the absolute
expiry instant `expires_at` (seconds, as an absolute instant). -/
structure assoc_t where
  server : String
  handle : String
  secret : List Nat
  expires_at : Nat
deriving DecidableEq

/-- An association is expired at an instant when its expiry is not
strictly in the future. -/
def is_expired (a : assoc_t) (now : Nat) : Bool :=
  decide (a.expires_at ≤ now)

/-- Modelled from the spec: the association store state, keyed by
(provider, handle).  `invalidate` is removal, so an association is in the
store exactly while it has been stored and not invalidated. -/
abbrev store_t := List assoc_t

/-- Whether a stored association is keyed by the given server and handle. -/
def keyed (a : assoc_t) (server handle : String) : Bool :=
  a.server == server && a.handle == handle

/-- Modelled from the spec (4.1 `store`, header `store_assoc`): persist a
freshly negotiated association; the new association carries expiry
`now + expires_in`, the exact expiry the provider declared. -/
def store_assoc (st : store_t) (server handle : String) (secret : List Nat)
    (expires_in : Nat) (now : Nat) : store_t × assoc_t :=
  let a : assoc_t := ⟨server, handle, secret, now + expires_in⟩
  (a :: st, a)

/-- Modelled from the spec (4.1 `retrieve`, header `retrieve_assoc`):
return an association for the key only if one is present, not
invalidated (still in the store) and unexpired at the instant of the
call; otherwise fail with `NotFound` (`failed_lookup`), modelled as
`none`. -/
def retrieve_assoc (st : store_t) (server handle : String) (now : Nat) :
    Option assoc_t :=
  st.find? (fun a => keyed a server handle && ! is_expired a now)

/-- Modelled from the spec (4.1 `invalidate`, header `invalidate_assoc`):
idempotent removal of every association under the key; no error if
already absent. -/
def invalidate_assoc (st : store_t) (server handle : String) : store_t :=
  st.filter (fun a => ! keyed a server handle)

/-- Modelled from the spec (4.2): the provider's reply to an `associate`
handshake: the issued handle, the encrypted MAC key, the locally derived
Diffie-Hellman shared key, and the provider-declared lifetime
`expires_in` in seconds. -/
structure assoc_response where
  assoc_handle : String
  enc_mac_key : List Nat
  dh_key : List Nat
  expires_in : Nat
deriving DecidableEq

/-- Modelled from the spec (4.2): the shared secret is the XOR of the
provider's encrypted secret with the locally derived DH shared key. -/
def derive_secret (enc dh : List Nat) : List Nat :=
  List.zipWith Nat.xor enc dh

/-- Modelled from the spec (4.2, header `associate`): a successful
negotiation hands secret and handle to the store via `store_assoc`, with
the exact provider-declared `expires_in`; the discovery and transport of
the handshake are external, so the provider's reply is an input. -/
def associate (st : store_t) (server : String) (r : assoc_response)
    (now : Nat) : store_t × assoc_t :=
  store_assoc st server r.assoc_handle (derive_secret r.enc_mac_key r.dh_key)
    r.expires_in now

/-- The byte values of a string's characters. -/
def str_bytes (s : String) : List Nat :=
  s.data.map Char.toNat

/-- Modelled from the spec (6): the HMAC computation is abstracted to an
executable keyed digest over the secret and the signed data; the claims
depend only on which secret and which data enter the computation, not on
the hash internals, which are external cryptographic primitives. -/
def mac (secret : List Nat) (data : String) : String :=
  toString ((secret ++ [58] ++ str_bytes data).foldl
    (fun acc b => (acc * 131 + b) % (2 ^ 32)) 5381)

/-- Split a character list on a separator character; the wire form of
`openid.signed` is a comma-separated field list. -/
def split_on_char (c : Char) : List Char → List (List Char)
  | [] => [[]]
  | x :: xs =>
    match split_on_char c xs with
    | [] => [[x]]
    | g :: gs => if x = c then [] :: g :: gs else (x :: g) :: gs

/-- The list of field names carried by `openid.signed`, comma-separated
on the wire. -/
def signed_fields (pin : params_t) : List String :=
  (split_on_char ',' ((get_param pin "openid.signed").getD "").data).map
    List.asString

/-- Modelled from the spec (6): the data covered by the signature is the
newline-joined `key:value` pairs for exactly the fields named in
`openid.signed`, in the order listed there. -/
def signed_data (pin : params_t) : String :=
  String.join ((signed_fields pin).map
    (fun f => f ++ ":" ++ ((get_param pin ("openid." ++ f)).getD "") ++ "\n"))

/-- Modelled from the spec (4.4 step 3): the mandatory signed fields. -/
def mandatory_signed : List String :=
  ["mode", "identity", "return_to", "assoc_handle"]

/-- Whether `openid.signed` lists at least the mandatory fields. -/
def signed_ok (pin : params_t) : Bool :=
  mandatory_signed.all (fun f => (signed_fields pin).contains f)

/-- Whether a character is a decimal digit. -/
def is_digit (c : Char) : Bool :=
  decide (48 ≤ c.toNat ∧ c.toNat ≤ 57)

/-- The leading run of decimal digits of a character list. -/
def digit_head : List Char → List Char
  | [] => []
  | c :: cs => if is_digit c then c :: digit_head cs else []

/-- Modelled from the spec (4.4 step 4): the OpenID 2.0 response nonce
begins with the response timestamp; extract it as the numeric head of
the nonce string. -/
def nonce_ts (nonce : String) : Nat :=
  (digit_head nonce.data).foldl (fun acc c => acc * 10 + (c.toNat - 48)) 0

/-- Whether a response timestamp falls within the acceptable clock-skew
window around the verifier's current instant. -/
def within_skew (now ts skew : Nat) : Bool :=
  decide ((if ts ≤ now then now - ts else ts - now) ≤ skew)

/-- The terminal states of one verification attempt: `Verified`,
`SetupNeeded`, or one of the named failures of the error taxonomy (7). -/
inductive outcome where
  | Verified
  | SetupNeeded (url : String)
  | ResponseRejected
  | IdentityMismatch
  | MissingSignedFields
  | ReplayDetected
  | StaleResponse
  | SignatureMismatch
  | VerificationDenied
  | ExpiredOnDelivery
deriving DecidableEq

/-- An observable action of the verifier against its collaborators, in
the order performed: association-store reads and removals, signature
computation, and the stateless `check_authentication` round trip. -/
inductive effect where
  | eff_retrieve (server handle : String)
  | eff_sig_compute
  | eff_check_auth (server : String)
  | eff_invalidate (server handle : String)
deriving DecidableEq

/-- Modelled from the spec (4.5): the provider's reply to a stateless
`check_authentication` request: whether the signature verified, and an
optional handle the consumer must invalidate. -/
structure ca_reply where
  is_valid : Bool
  inv_handle : Option String
deriving DecidableEq

/-- The verifier's persistent state: the association store and the set
of previously accepted response nonces (the nonce/replay guard). -/
structure vstate where
  assocs : store_t
  nonces : List String
deriving DecidableEq

/-- Modelled from the spec (4.4 steps 1 through 3): the mode check, the
identity check and the signed-field check, in that order; `none` means
all three passed.  The caller-supplied expected identity follows the
source signature, where the empty string means not supplied. -/
def pre_check (pin : params_t) (identity : String) : Option outcome :=
  match get_param pin "openid.mode" with
  | none => some .ResponseRejected
  | some m =>
    if m ≠ "id_res" then some .ResponseRejected
    else match get_param pin "openid.user_setup_url" with
    | some url => some (.SetupNeeded url)
    | none =>
      if identity ≠ "" ∧ get_param pin "openid.identity" ≠ some identity then
        some .IdentityMismatch
      else if ! signed_ok pin then some .MissingSignedFields
      else none

/-- Modelled from the spec (4.4 steps 5 and 6, 4.5): the trust-path
dispatch.  Stateful: retrieve the association, recompute the signature
over exactly the signed fields with the stored secret, compare against
`openid.sig`, then re-check expiry at delivery time `now2`.  Stateless,
on store miss: the provider's `check_authentication` verdict decides,
and a provider-named handle is invalidated before the failure returns.
`nonce` is recorded as accepted on success. -/
def trust_dispatch (vs : vstate) (now now2 : Nat) (server : String)
    (pin : params_t) (nonce : String) (ca : ca_reply) :
    outcome × vstate × List effect :=
  let handle := (get_param pin "openid.assoc_handle").getD ""
  match retrieve_assoc vs.assocs server handle now with
  | some a =>
    let effs := [effect.eff_retrieve server handle, effect.eff_sig_compute]
    if get_param pin "openid.sig" ≠ some (mac a.secret (signed_data pin)) then
      (.SignatureMismatch, vs, effs)
    else if a.expires_at ≤ now2 then
      (.ExpiredOnDelivery, vs, effs)
    else
      (.Verified, vstate.mk vs.assocs (nonce :: vs.nonces), effs)
  | none =>
    let effs := [effect.eff_retrieve server handle, effect.eff_check_auth server]
    match ca.inv_handle with
    | some h =>
      (.VerificationDenied,
       vstate.mk (invalidate_assoc vs.assocs server h) vs.nonces,
       effs ++ [effect.eff_invalidate server h])
    | none =>
      if ca.is_valid then
        (.Verified, vstate.mk vs.assocs (nonce :: vs.nonces), effs)
      else (.VerificationDenied, vs, effs)

/-- Modelled from the spec (4.4, header `id_res`): the response-verifier
pipeline.  Steps 1 through 3 are `pre_check`; step 4 is the nonce/replay
guard (previously accepted nonce fails with `ReplayDetected`, a
timestamp outside the skew window with `StaleResponse`); steps 5 and 6
are `trust_dispatch`.  `now` is the verification instant, `now2` the
delivery instant of the expiry re-check, `server` the provider endpoint
resolved by discovery (external), and `ca` the provider's reply should
the stateless path be taken (transport is external). -/
def id_res (vs : vstate) (now now2 skew : Nat) (server : String)
    (pin : params_t) (identity : String) (ca : ca_reply) :
    outcome × vstate × List effect :=
  match pre_check pin identity with
  | some o => (o, vs, [])
  | none =>
    let nonce := (get_param pin "openid.response_nonce").getD ""
    if vs.nonces.contains nonce then (.ReplayDetected, vs, [])
    else if ! within_skew now (nonce_ts nonce) skew then
      (.StaleResponse, vs, [])
    else trust_dispatch vs now now2 server pin nonce ca

/-- The two checkid request modes of the source (`mode_t`). -/
inductive mode_t where
  | mode_checkid_immediate
  | mode_checkid_setup
deriving DecidableEq

/-- The wire value of a checkid mode. -/
def mode_string : mode_t → String
  | .mode_checkid_immediate => "checkid_immediate"
  | .mode_checkid_setup => "checkid_setup"

/-- Modelled from the spec (4.1 `find_any`, header `find_assoc`):
best-effort lookup of some unexpired association for the provider. -/
def find_assoc (st : store_t) (server : String) (now : Nat) :
    Option assoc_t :=
  st.find? (fun a => a.server == server && ! is_expired a now)

/-- Query-string encoding of a parameter set onto an endpoint; the
percent-escaping string mechanics are external (out of scope), so keys
and values are joined verbatim. -/
def urlencode (p : params_t) : String :=
  String.intercalate "&" (p.map (fun kv => kv.1 ++ "=" ++ kv.2))

/-- Modelled from the spec (4.3, header `checkid_`): the shared
implementation behind the two public entry points.  Resolves an
association by `find_assoc` with a single `associate` fallback (the
provider's handshake reply `r` is an input, transport being external),
emits the parameter set for the given mode, runs the extension hook once
if supplied, and URL-encodes onto the provider endpoint. -/
def checkid_ (st : store_t) (now : Nat) (mode : mode_t)
    (identity return_to trust_root : String) (server : String)
    (r : assoc_response) (ext : Option (params_t → params_t)) :
    String × store_t :=
  let res := match find_assoc st server now with
    | some a => (st, a)
    | none => associate st server r now
  let ps : params_t :=
    [("openid.mode", mode_string mode),
     ("openid.identity", identity),
     ("openid.return_to", return_to)] ++
    (if trust_root ≠ "" then [("openid.trust_root", trust_root)] else []) ++
    [("openid.assoc_handle", res.2.handle)]
  let ps2 := match ext with
    | some f => f ps
    | none => ps
  (server ++ "?" ++ urlencode ps2, res.1)

/-- Modelled from the spec (header `checkid_immediate`): prepare the
parameters for the checkid_immediate request; delegates to `checkid_`
with `mode_checkid_immediate`. -/
def checkid_immediate (st : store_t) (now : Nat)
    (identity return_to trust_root : String) (server : String)
    (r : assoc_response) (ext : Option (params_t → params_t)) :
    String × store_t :=
  checkid_ st now .mode_checkid_immediate identity return_to trust_root
    server r ext

/-- Modelled from the spec (header `checkid_setup`): prepare the
parameters for the checkid_setup request; delegates to `checkid_` with
`mode_checkid_setup`. -/
def checkid_setup (st : store_t) (now : Nat)
    (identity return_to trust_root : String) (server : String)
    (r : assoc_response) (ext : Option (params_t → params_t)) :
    String × store_t :=
  checkid_ st now .mode_checkid_setup identity return_to trust_root
    server r ext

/-- A found association satisfies the `find?` predicate of
`retrieve_assoc`: it is keyed correctly and unexpired. -/
theorem retrieve_assoc_pred (st : store_t) (server handle : String)
    (now : Nat) (a : assoc_t)
    (h : retrieve_assoc st server handle now = some a) :
    a.server = server ∧ a.handle = handle ∧ now < a.expires_at := by
  have hp := List.find?_some h
  simp only [keyed, is_expired, Bool.and_eq_true, Bool.not_eq_true',
    decide_eq_false_iff_not, not_le, beq_iff_eq] at hp
  exact ⟨hp.1.1, hp.1.2, hp.2⟩

/-- Retrieval from a store with no association under the key fails. -/
theorem retrieve_assoc_none (st : store_t) (server handle : String)
    (now : Nat) (h : ∀ a ∈ st, keyed a server handle = false) :
    retrieve_assoc st server handle now = none := by
  rw [retrieve_assoc, List.find?_eq_none]
  intro a ha
  simp [h a ha]

/-- Every association surviving `invalidate_assoc` is keyed elsewhere. -/
theorem invalidate_assoc_keyed (st : store_t) (server handle : String) :
    ∀ a ∈ invalidate_assoc st server handle, keyed a server handle = false := by
  intro a ha
  have := List.mem_filter.mp ha
  simpa using this.2

/-- C4: for every provider and handle, `retrieve_assoc` either returns an
association that is keyed to that provider and handle, unexpired and
still present (not invalidated) at the moment of return, or fails with
`NotFound` (`none`); and retrieval after invalidation of the key always
fails, so an expired or invalidated record is never returned. -/
theorem retrieve_assoc_valid (st : store_t) (server handle : String)
    (now : Nat) (a : assoc_t)
    (h : retrieve_assoc st server handle now = some a) :
    now < a.expires_at ∧ a.server = server ∧ a.handle = handle ∧ a ∈ st ∧
    retrieve_assoc (invalidate_assoc st server handle) server handle now
      = none := by
  have hp := retrieve_assoc_pred st server handle now a h
  exact ⟨hp.2.2, hp.1, hp.2.1, List.mem_of_find?_eq_some h,
    retrieve_assoc_none _ _ _ _ (invalidate_assoc_keyed st server handle)⟩

/-- C4 witness: a concrete store in which retrieval succeeds on an
unexpired association and fails after invalidation. -/
theorem retrieve_assoc_valid_witness :
    (5 : Nat) < 10 ∧ "s" = "s" ∧ "h" = "h" ∧
    assoc_t.mk "s" "h" [1] 10 ∈ ([assoc_t.mk "s" "h" [1] 10] : store_t) ∧
    retrieve_assoc (invalidate_assoc [assoc_t.mk "s" "h" [1] 10] "s" "h")
      "s" "h" 5 = none :=
  retrieve_assoc_valid [assoc_t.mk "s" "h" [1] 10] "s" "h" 5
    (assoc_t.mk "s" "h" [1] 10) (by decide)

/-- C6: invalidation is idempotent on every store state, is a no-op
(raising no error) when no record under the key is present, and every
subsequent retrieval for that provider and handle fails with
`NotFound`. -/
theorem invalidate_assoc_props (st : store_t) (server handle : String)
    (now : Nat) :
    invalidate_assoc (invalidate_assoc st server handle) server handle =
      invalidate_assoc st server handle ∧
    ((∀ a ∈ st, keyed a server handle = false) →
      invalidate_assoc st server handle = st) ∧
    retrieve_assoc (invalidate_assoc st server handle) server handle now
      = none := by
  refine ⟨?_, ?_, ?_⟩
  · simp only [invalidate_assoc]
    rw [List.filter_filter]
    simp
  · intro h
    rw [invalidate_assoc]
    apply List.filter_eq_self.mpr
    intro a ha
    simp [h a ha]
  · exact retrieve_assoc_none _ _ _ _ (invalidate_assoc_keyed st server handle)

/-- C6 witness: the three invalidation properties at a concrete store,
with the already-absent hypothesis discharged. -/
theorem invalidate_assoc_props_witness :
    invalidate_assoc (invalidate_assoc ([] : store_t) "s" "h") "s" "h" =
      invalidate_assoc ([] : store_t) "s" "h" ∧
    invalidate_assoc ([] : store_t) "s" "h" = [] ∧
    retrieve_assoc (invalidate_assoc ([] : store_t) "s" "h") "s" "h" 0
      = none := by
  have h := invalidate_assoc_props ([] : store_t) "s" "h" 0
  exact ⟨h.1, h.2.1 (by simp), h.2.2⟩

/-- C5: a successfully negotiated association carries exactly the
provider-declared expiry, negotiation time plus `expires_in`; and once
that instant has passed, retrieval for that provider and handle on the
resulting store fails with `NotFound` (the handle being freshly issued
by the provider, no other association bears it). -/
theorem associate_expiry (st : store_t) (server : String)
    (r : assoc_response) (now t : Nat)
    (hfresh : ∀ a ∈ st, keyed a server r.assoc_handle = false)
    (ht : now + r.expires_in ≤ t) :
    (associate st server r now).2.expires_at = now + r.expires_in ∧
    retrieve_assoc (associate st server r now).1 server r.assoc_handle t
      = none := by
  constructor
  · rfl
  · rw [retrieve_assoc, List.find?_eq_none]
    intro a ha
    simp only [associate, store_assoc, List.mem_cons] at ha
    rcases ha with rfl | ha
    · simp [keyed, is_expired, ht]
    · simp [hfresh a ha]

/-- C5 witness: a concrete negotiation with a 60-second lifetime whose
association expires exactly 60 seconds after negotiation time and is no
longer retrievable at that instant. -/
theorem associate_expiry_witness :
    (associate ([] : store_t) "s" (assoc_response.mk "h" [1] [2] 60) 0).2.expires_at
      = 0 + 60 ∧
    retrieve_assoc
      (associate ([] : store_t) "s" (assoc_response.mk "h" [1] [2] 60) 0).1
      "s" "h" 60 = none :=
  associate_expiry [] "s" (assoc_response.mk "h" [1] [2] 60) 0 60
    (by simp) (by decide)

/-- C10: the public entry points `checkid_immediate` and `checkid_setup`
produce exactly the result of the shared implementation `checkid_`
invoked with `mode_checkid_immediate` and `mode_checkid_setup`
respectively, for every identity, return_to, trust_root and extension
argument; they differ only in the mode value passed through. -/
theorem checkid_entry_points (st : store_t) (now : Nat)
    (identity return_to trust_root server : String) (r : assoc_response)
    (ext : Option (params_t → params_t)) :
    checkid_immediate st now identity return_to trust_root server r ext =
      checkid_ st now .mode_checkid_immediate identity return_to trust_root
        server r ext ∧
    checkid_setup st now identity return_to trust_root server r ext =
      checkid_ st now .mode_checkid_setup identity return_to trust_root
        server r ext :=
  ⟨rfl, rfl⟩

/-- The pre-check yields only the mode, setup, identity or signed-field
verdicts, never `Verified`. -/
theorem pre_check_cases (pin : params_t) (identity : String) (o : outcome)
    (h : pre_check pin identity = some o) :
    o = .ResponseRejected ∨ (∃ url, o = .SetupNeeded url) ∨
    o = .IdentityMismatch ∨ o = .MissingSignedFields := by
  unfold pre_check at h
  split at h
  · exact Or.inl (Option.some.inj h).symm
  · split at h
    · exact Or.inl (Option.some.inj h).symm
    · split at h
      · exact Or.inr (Or.inl ⟨_, (Option.some.inj h).symm⟩)
      · split at h
        · exact Or.inr (Or.inr (Or.inl (Option.some.inj h).symm))
        · split at h
          · exact Or.inr (Or.inr (Or.inr (Option.some.inj h).symm))
          · exact absurd h (by simp)

/-- When the pre-check and the nonce guard pass, the verifier reduces to
the trust-path dispatch. -/
theorem id_res_dispatch (vs : vstate) (now now2 skew : Nat)
    (server : String) (pin : params_t) (identity : String) (ca : ca_reply)
    (hpc : pre_check pin identity = none)
    (hfresh : vs.nonces.contains
      ((get_param pin "openid.response_nonce").getD "") = false)
    (hskew : within_skew now
      (nonce_ts ((get_param pin "openid.response_nonce").getD "")) skew
      = true) :
    id_res vs now now2 skew server pin identity ca =
      trust_dispatch vs now now2 server pin
        ((get_param pin "openid.response_nonce").getD "") ca := by
  have hfresh2 : ((get_param pin "openid.response_nonce").getD "")
      ∉ vs.nonces := by
    simpa using hfresh
  unfold id_res
  rw [hpc]
  simp [hfresh2, hskew]

/-- C2: the mode check comes first: a response with mode `id_res` and a
`user_setup_url` field yields `SetupNeeded`, distinct from the
`ResponseRejected` failure; a response with any other mode (such as
`cancel` or `error`) fails with `ResponseRejected`; in both cases the
store is untouched and no store access (empty effect trace) is
attempted. -/
theorem id_res_mode_check (vs : vstate) (now now2 skew : Nat)
    (server : String) (pin1 pin2 : params_t) (identity : String)
    (ca : ca_reply) (url m : String)
    (h1 : get_param pin1 "openid.mode" = some "id_res")
    (h2 : get_param pin1 "openid.user_setup_url" = some url)
    (h3 : get_param pin2 "openid.mode" = some m)
    (h4 : m ≠ "id_res") :
    (id_res vs now now2 skew server pin1 identity ca
        = (.SetupNeeded url, vs, []) ∧
      outcome.SetupNeeded url ≠ outcome.ResponseRejected) ∧
    id_res vs now now2 skew server pin2 identity ca
      = (.ResponseRejected, vs, []) := by
  refine ⟨⟨?_, by simp⟩, ?_⟩
  · unfold id_res pre_check
    rw [h1, h2]
    simp
  · unfold id_res pre_check
    rw [h3]
    simp [h4]

/-- C2 witness: a setup-deferred immediate-mode response and a cancelled
response at concrete parameter sets. -/
theorem id_res_mode_check_witness :
    (id_res (vstate.mk [] []) 0 0 0 "s"
        [("openid.mode", "id_res"), ("openid.user_setup_url", "u")] "" ⟨true, none⟩
        = (.SetupNeeded "u", vstate.mk [] [], []) ∧
      outcome.SetupNeeded "u" ≠ outcome.ResponseRejected) ∧
    id_res (vstate.mk [] []) 0 0 0 "s" [("openid.mode", "cancel")] ""
        ⟨true, none⟩
      = (.ResponseRejected, vstate.mk [] [], []) :=
  id_res_mode_check (vstate.mk [] []) 0 0 0 "s"
    [("openid.mode", "id_res"), ("openid.user_setup_url", "u")]
    [("openid.mode", "cancel")] "" ⟨true, none⟩ "u" "cancel"
    (by rfl) (by rfl) (by rfl) (by decide)

/-- C8: when the caller supplies an expected identity and the response's
`openid.identity` differs, verification fails with `IdentityMismatch`
with an empty effect trace: no signature computation and no store access
has occurred. -/
theorem id_res_identity_check (vs : vstate) (now now2 skew : Nat)
    (server : String) (pin : params_t) (identity : String) (ca : ca_reply)
    (hmode : get_param pin "openid.mode" = some "id_res")
    (hsetup : get_param pin "openid.user_setup_url" = none)
    (hsupplied : identity ≠ "")
    (hne : get_param pin "openid.identity" ≠ some identity) :
    id_res vs now now2 skew server pin identity ca
      = (.IdentityMismatch, vs, []) := by
  unfold id_res pre_check
  rw [hmode, hsetup]
  simp [hsupplied, hne]

/-- C8 witness: a concrete response whose identity differs from the
caller-supplied one. -/
theorem id_res_identity_check_witness :
    id_res (vstate.mk [] []) 0 0 0 "s"
        [("openid.mode", "id_res"), ("openid.identity", "alice")] "bob"
        ⟨true, none⟩
      = (.IdentityMismatch, vstate.mk [] [], []) :=
  id_res_identity_check (vstate.mk [] []) 0 0 0 "s"
    [("openid.mode", "id_res"), ("openid.identity", "alice")] "bob"
    ⟨true, none⟩ (by rfl) (by rfl) (by decide) (by decide)

/-- C1: when the response's assoc_handle resolves in the store, the
verifier recomputes the signature over exactly the fields listed in
`openid.signed` (the `signed_data`) with the stored secret and compares
it against `openid.sig`, failing with `SignatureMismatch` on inequality
after exactly a store read and a signature computation; when the handle
is not found, the verifier falls through to the stateless
`check_authentication` path, whose verdict (not the store miss) decides
the outcome. -/
theorem id_res_signature_paths (vs : vstate) (now now2 skew : Nat)
    (server : String) (pin pin2 : params_t) (identity : String)
    (ca : ca_reply) (a : assoc_t)
    (hpc : pre_check pin identity = none)
    (hfresh : vs.nonces.contains
      ((get_param pin "openid.response_nonce").getD "") = false)
    (hskew : within_skew now
      (nonce_ts ((get_param pin "openid.response_nonce").getD "")) skew
      = true)
    (hret : retrieve_assoc vs.assocs server
      ((get_param pin "openid.assoc_handle").getD "") now = some a)
    (hsig : get_param pin "openid.sig"
      ≠ some (mac a.secret (signed_data pin)))
    (hpc2 : pre_check pin2 identity = none)
    (hfresh2 : vs.nonces.contains
      ((get_param pin2 "openid.response_nonce").getD "") = false)
    (hskew2 : within_skew now
      (nonce_ts ((get_param pin2 "openid.response_nonce").getD "")) skew
      = true)
    (hret2 : retrieve_assoc vs.assocs server
      ((get_param pin2 "openid.assoc_handle").getD "") now = none) :
    id_res vs now now2 skew server pin identity ca
      = (.SignatureMismatch, vs,
         [effect.eff_retrieve server
            ((get_param pin "openid.assoc_handle").getD ""),
          effect.eff_sig_compute]) ∧
    effect.eff_check_auth server
      ∈ (id_res vs now now2 skew server pin2 identity ca).2.2 ∧
    ((id_res vs now now2 skew server pin2 identity ca).1 = .Verified ∨
     (id_res vs now now2 skew server pin2 identity ca).1
       = .VerificationDenied) := by
  rw [id_res_dispatch vs now now2 skew server pin identity ca hpc hfresh
    hskew]
  rw [id_res_dispatch vs now now2 skew server pin2 identity ca hpc2 hfresh2
    hskew2]
  refine ⟨?_, ?_, ?_⟩
  · simp only [trust_dispatch]
    rw [hret]
    simp [hsig]
  · simp only [trust_dispatch]
    rw [hret2]
    rcases hca : ca.inv_handle with _ | h
    · rcases hv : ca.is_valid <;> simp
    · simp
  · simp only [trust_dispatch]
    rw [hret2]
    rcases hca : ca.inv_handle with _ | h
    · rcases hv : ca.is_valid <;> simp
    · simp

/-- C1 witness: a resolving handle with a wrong signature fails with
`SignatureMismatch`, and an absent handle reaches the stateless path. -/
theorem id_res_signature_paths_witness :
    id_res (vstate.mk [assoc_t.mk "s" "h1" [7] 100] []) 5 7 10 "s"
        [("openid.mode", "id_res"),
         ("openid.signed", "mode,identity,return_to,assoc_handle"),
         ("openid.response_nonce", "5"),
         ("openid.assoc_handle", "h1"),
         ("openid.sig", "bogus")] "" ⟨true, none⟩
      = (.SignatureMismatch, vstate.mk [assoc_t.mk "s" "h1" [7] 100] [],
         [effect.eff_retrieve "s" "h1", effect.eff_sig_compute]) ∧
    effect.eff_check_auth "s"
      ∈ (id_res (vstate.mk [assoc_t.mk "s" "h1" [7] 100] []) 5 7 10 "s"
          [("openid.mode", "id_res"),
           ("openid.signed", "mode,identity,return_to,assoc_handle"),
           ("openid.response_nonce", "5")] "" ⟨true, none⟩).2.2 ∧
    ((id_res (vstate.mk [assoc_t.mk "s" "h1" [7] 100] []) 5 7 10 "s"
        [("openid.mode", "id_res"),
         ("openid.signed", "mode,identity,return_to,assoc_handle"),
         ("openid.response_nonce", "5")] "" ⟨true, none⟩).1 = .Verified ∨
     (id_res (vstate.mk [assoc_t.mk "s" "h1" [7] 100] []) 5 7 10 "s"
        [("openid.mode", "id_res"),
         ("openid.signed", "mode,identity,return_to,assoc_handle"),
         ("openid.response_nonce", "5")] "" ⟨true, none⟩).1
       = .VerificationDenied) :=
  id_res_signature_paths (vstate.mk [assoc_t.mk "s" "h1" [7] 100] [])
    5 7 10 "s"
    [("openid.mode", "id_res"),
     ("openid.signed", "mode,identity,return_to,assoc_handle"),
     ("openid.response_nonce", "5"),
     ("openid.assoc_handle", "h1"),
     ("openid.sig", "bogus")]
    [("openid.mode", "id_res"),
     ("openid.signed", "mode,identity,return_to,assoc_handle"),
     ("openid.response_nonce", "5")] "" ⟨true, none⟩
    (assoc_t.mk "s" "h1" [7] 100)
    (by rfl) (by rfl) (by decide) (by rfl) (by decide)
    (by rfl) (by rfl) (by decide) (by rfl)

/-- C3: on the stateless path, a provider reply naming an
invalidate_handle fails with `VerificationDenied` and the named handle
is invalidated (the effect is in the returned trace and the returned
store already reflects the removal); a negative reply without a named
handle also fails with `VerificationDenied`. -/
theorem id_res_check_auth_denied (vs : vstate) (now now2 skew : Nat)
    (server : String) (pin : params_t) (identity : String)
    (ca ca2 : ca_reply) (h : String)
    (hpc : pre_check pin identity = none)
    (hfresh : vs.nonces.contains
      ((get_param pin "openid.response_nonce").getD "") = false)
    (hskew : within_skew now
      (nonce_ts ((get_param pin "openid.response_nonce").getD "")) skew
      = true)
    (hret : retrieve_assoc vs.assocs server
      ((get_param pin "openid.assoc_handle").getD "") now = none)
    (hinv : ca.inv_handle = some h)
    (hca2v : ca2.is_valid = false)
    (hca2h : ca2.inv_handle = none) :
    ((id_res vs now now2 skew server pin identity ca).1
        = .VerificationDenied ∧
      effect.eff_invalidate server h
        ∈ (id_res vs now now2 skew server pin identity ca).2.2 ∧
      (id_res vs now now2 skew server pin identity ca).2.1.assocs
        = invalidate_assoc vs.assocs server h) ∧
    (id_res vs now now2 skew server pin identity ca2).1
      = .VerificationDenied := by
  rw [id_res_dispatch vs now now2 skew server pin identity ca hpc hfresh
    hskew]
  rw [id_res_dispatch vs now now2 skew server pin identity ca2 hpc hfresh
    hskew]
  refine ⟨?_, ?_⟩
  · simp only [trust_dispatch]
    rw [hret, hinv]
    simp
  · simp only [trust_dispatch]
    rw [hret, hca2h]
    simp [hca2v]

/-- C3 witness: a provider reply naming handle `H` at a concrete
response: verification is denied and `H` is invalidated. -/
theorem id_res_check_auth_denied_witness :
    ((id_res (vstate.mk [] []) 5 5 10 "s"
        [("openid.mode", "id_res"),
         ("openid.signed", "mode,identity,return_to,assoc_handle"),
         ("openid.response_nonce", "5")] "" ⟨false, some "H"⟩).1
        = .VerificationDenied ∧
      effect.eff_invalidate "s" "H"
        ∈ (id_res (vstate.mk [] []) 5 5 10 "s"
            [("openid.mode", "id_res"),
             ("openid.signed", "mode,identity,return_to,assoc_handle"),
             ("openid.response_nonce", "5")] "" ⟨false, some "H"⟩).2.2 ∧
      (id_res (vstate.mk [] []) 5 5 10 "s"
          [("openid.mode", "id_res"),
           ("openid.signed", "mode,identity,return_to,assoc_handle"),
           ("openid.response_nonce", "5")] "" ⟨false, some "H"⟩).2.1.assocs
        = invalidate_assoc [] "s" "H") ∧
    (id_res (vstate.mk [] []) 5 5 10 "s"
        [("openid.mode", "id_res"),
         ("openid.signed", "mode,identity,return_to,assoc_handle"),
         ("openid.response_nonce", "5")] "" ⟨false, none⟩).1
      = .VerificationDenied :=
  id_res_check_auth_denied (vstate.mk [] []) 5 5 10 "s"
    [("openid.mode", "id_res"),
     ("openid.signed", "mode,identity,return_to,assoc_handle"),
     ("openid.response_nonce", "5")] "" ⟨false, some "H"⟩ ⟨false, none⟩ "H"
    (by rfl) (by rfl) (by decide) (by rfl) (by rfl) (by rfl) (by rfl)

/-- C9: on a stateful verification whose signature matches, the
association's expiry is re-checked at the delivery instant,
independently of the expiry check made at retrieval time: if it has
expired by delivery the verification fails with `ExpiredOnDelivery`,
and if it is still in the future the verification succeeds. -/
theorem id_res_expiry_recheck (vs : vstate) (now now2a now2b skew : Nat)
    (server : String) (pin : params_t) (identity : String) (ca : ca_reply)
    (a : assoc_t)
    (hpc : pre_check pin identity = none)
    (hfresh : vs.nonces.contains
      ((get_param pin "openid.response_nonce").getD "") = false)
    (hskew : within_skew now
      (nonce_ts ((get_param pin "openid.response_nonce").getD "")) skew
      = true)
    (hret : retrieve_assoc vs.assocs server
      ((get_param pin "openid.assoc_handle").getD "") now = some a)
    (hsig : get_param pin "openid.sig"
      = some (mac a.secret (signed_data pin)))
    (hexp : a.expires_at ≤ now2a)
    (hlive : now2b < a.expires_at) :
    (id_res vs now now2a skew server pin identity ca).1
      = .ExpiredOnDelivery ∧
    (id_res vs now now2b skew server pin identity ca).1 = .Verified := by
  rw [id_res_dispatch vs now now2a skew server pin identity ca hpc hfresh
    hskew]
  rw [id_res_dispatch vs now now2b skew server pin identity ca hpc hfresh
    hskew]
  constructor
  · simp only [trust_dispatch]
    rw [hret]
    simp [hsig, hexp]
  · simp only [trust_dispatch]
    rw [hret]
    simp [hsig, Nat.not_le.mpr hlive]

/-- C9 witness: an association retrieved unexpired at instant 5 with a
matching signature: delivery at instant 10 (its expiry) fails with
`ExpiredOnDelivery`, delivery at instant 6 verifies. -/
theorem id_res_expiry_recheck_witness :
    (id_res (vstate.mk [assoc_t.mk "s" "h1" [7] 10] []) 5 10 10 "s"
        [("openid.mode", "id_res"),
         ("openid.signed", "mode,identity,return_to,assoc_handle"),
         ("openid.response_nonce", "5"),
         ("openid.assoc_handle", "h1"),
         ("openid.sig", "2016977038")] "" ⟨true, none⟩).1
      = .ExpiredOnDelivery ∧
    (id_res (vstate.mk [assoc_t.mk "s" "h1" [7] 10] []) 5 6 10 "s"
        [("openid.mode", "id_res"),
         ("openid.signed", "mode,identity,return_to,assoc_handle"),
         ("openid.response_nonce", "5"),
         ("openid.assoc_handle", "h1"),
         ("openid.sig", "2016977038")] "" ⟨true, none⟩).1 = .Verified :=
  id_res_expiry_recheck (vstate.mk [assoc_t.mk "s" "h1" [7] 10] [])
    5 10 6 10 "s"
    [("openid.mode", "id_res"),
     ("openid.signed", "mode,identity,return_to,assoc_handle"),
     ("openid.response_nonce", "5"),
     ("openid.assoc_handle", "h1"),
     ("openid.sig", "2016977038")] "" ⟨true, none⟩
    (assoc_t.mk "s" "h1" [7] 10)
    (by rfl) (by rfl) (by decide) (by rfl) (by decide)
    (by decide) (by decide)

/-- A previously accepted nonce is rejected by the replay guard. -/
theorem id_res_replay (vs : vstate) (now now2 skew : Nat) (server : String)
    (pin : params_t) (identity : String) (ca : ca_reply)
    (hpc : pre_check pin identity = none)
    (hmem : vs.nonces.contains
      ((get_param pin "openid.response_nonce").getD "") = true) :
    id_res vs now now2 skew server pin identity ca
      = (.ReplayDetected, vs, []) := by
  have hmem2 : ((get_param pin "openid.response_nonce").getD "")
      ∈ vs.nonces := by
    simpa using hmem
  unfold id_res
  rw [hpc]
  simp [hmem2]

/-- A fresh nonce whose timestamp is outside the skew window is rejected
as stale. -/
theorem id_res_stale (vs : vstate) (now now2 skew : Nat) (server : String)
    (pin : params_t) (identity : String) (ca : ca_reply)
    (hpc : pre_check pin identity = none)
    (hfresh : vs.nonces.contains
      ((get_param pin "openid.response_nonce").getD "") = false)
    (hskew : within_skew now
      (nonce_ts ((get_param pin "openid.response_nonce").getD "")) skew
      = false) :
    id_res vs now now2 skew server pin identity ca
      = (.StaleResponse, vs, []) := by
  have hfresh2 : ((get_param pin "openid.response_nonce").getD "")
      ∉ vs.nonces := by
    simpa using hfresh
  unfold id_res
  rw [hpc]
  simp [hfresh2, hskew]

/-- A dispatch that verifies records the response nonce as accepted. -/
theorem trust_dispatch_verified_nonces (vs : vstate) (now now2 : Nat)
    (server : String) (pin : params_t) (nonce : String) (ca : ca_reply)
    (res : outcome × vstate × List effect)
    (heq : trust_dispatch vs now now2 server pin nonce ca = res)
    (hv : res.1 = .Verified) :
    res.2.1.nonces = nonce :: vs.nonces := by
  simp only [trust_dispatch] at heq
  split at heq
  · split at heq
    · subst heq
      simp at hv
    · split at heq
      · subst heq
        simp at hv
      · subst heq
        rfl
  · split at heq
    · subst heq
      simp at hv
    · split at heq
      · subst heq
        rfl
      · subst heq
        simp at hv

/-- A verification that succeeds passed the pre-check and has recorded
the response nonce as accepted. -/
theorem id_res_verified_state (vs : vstate) (now now2 skew : Nat)
    (server : String) (pin : params_t) (identity : String) (ca : ca_reply)
    (h : (id_res vs now now2 skew server pin identity ca).1 = .Verified) :
    pre_check pin identity = none ∧
    (id_res vs now now2 skew server pin identity ca).2.1.nonces
      = ((get_param pin "openid.response_nonce").getD "") :: vs.nonces := by
  rcases hpc : pre_check pin identity with _ | o
  · refine ⟨rfl, ?_⟩
    cases hc : vs.nonces.contains
        ((get_param pin "openid.response_nonce").getD "") with
    | false =>
      cases hs : within_skew now
          (nonce_ts ((get_param pin "openid.response_nonce").getD ""))
          skew with
      | false =>
        rw [id_res_stale vs now now2 skew server pin identity ca hpc hc hs]
          at h
        simp at h
      | true =>
        rw [id_res_dispatch vs now now2 skew server pin identity ca hpc hc
          hs] at h ⊢
        exact trust_dispatch_verified_nonces _ _ _ _ _ _ _ _ rfl h
    | true =>
      rw [id_res_replay vs now now2 skew server pin identity ca hpc hc] at h
      simp at h
  · exfalso
    have hred : id_res vs now now2 skew server pin identity ca
        = (o, vs, []) := by
      unfold id_res
      rw [hpc]
    rw [hred] at h
    rcases pre_check_cases pin identity o hpc with h1 | ⟨url, h1⟩ | h1 | h1 <;>
      (subst h1; simp at h)

/-- C7: a response nonce is never accepted twice and a stale timestamp is
never accepted: a verification that yields `Verified` records its nonce,
so presenting the same response again yields `ReplayDetected`; and a
response whose fresh nonce carries a timestamp outside the clock-skew
window fails with `StaleResponse`. -/
theorem id_res_replay_guard (vs : vstate)
    (now now2 now3 now4 skew : Nat) (server : String)
    (pin pin2 : params_t) (identity : String) (ca ca2 : ca_reply)
    (hfirst : (id_res vs now now2 skew server pin identity ca).1
      = .Verified)
    (hpc2 : pre_check pin2 identity = none)
    (hfresh2 : vs.nonces.contains
      ((get_param pin2 "openid.response_nonce").getD "") = false)
    (hstale2 : within_skew now3
      (nonce_ts ((get_param pin2 "openid.response_nonce").getD "")) skew
      = false) :
    (id_res (id_res vs now now2 skew server pin identity ca).2.1
        now now2 skew server pin identity ca).1 = .ReplayDetected ∧
    (id_res vs now3 now4 skew server pin2 identity ca2).1
      = .StaleResponse := by
  obtain ⟨hpc, hnonces⟩ :=
    id_res_verified_state vs now now2 skew server pin identity ca hfirst
  constructor
  · have hmem : (id_res vs now now2 skew server pin identity
        ca).2.1.nonces.contains
        ((get_param pin "openid.response_nonce").getD "") = true := by
      rw [hnonces]
      simp
    rw [id_res_replay ((id_res vs now now2 skew server pin identity ca).2.1)
      now now2 skew server pin identity ca hpc hmem]
  · rw [id_res_stale vs now3 now4 skew server pin2 identity ca2 hpc2
      hfresh2 hstale2]

/-- C7 witness: a concrete response verified via the stateless path is
replay-detected when presented again, and a response with timestamp 100
at verifier time 5 with skew 10 is stale. -/
theorem id_res_replay_guard_witness :
    (id_res (id_res (vstate.mk [] []) 5 0 10 "s"
        [("openid.mode", "id_res"),
         ("openid.signed", "mode,identity,return_to,assoc_handle"),
         ("openid.response_nonce", "5")] "" ⟨true, none⟩).2.1
        5 0 10 "s"
        [("openid.mode", "id_res"),
         ("openid.signed", "mode,identity,return_to,assoc_handle"),
         ("openid.response_nonce", "5")] "" ⟨true, none⟩).1
      = .ReplayDetected ∧
    (id_res (vstate.mk [] []) 5 0 10 "s"
        [("openid.mode", "id_res"),
         ("openid.signed", "mode,identity,return_to,assoc_handle"),
         ("openid.response_nonce", "100")] "" ⟨true, none⟩).1
      = .StaleResponse :=
  id_res_replay_guard (vstate.mk [] []) 5 0 5 0 10 "s"
    [("openid.mode", "id_res"),
     ("openid.signed", "mode,identity,return_to,assoc_handle"),
     ("openid.response_nonce", "5")]
    [("openid.mode", "id_res"),
     ("openid.signed", "mode,identity,return_to,assoc_handle"),
     ("openid.response_nonce", "100")] "" ⟨true, none⟩ ⟨true, none⟩
    (by decide) (by decide) (by decide) (by decide)

end opkele
